import Mathlib

/-!
Shallow embedding of `scripts/analyze.py`, a single-file code-metrics
analyzer, together with theorems settling the spec claims about it.

A file's content is modelled as the list of lines produced by
`f.readlines()`; each line is a `List Char` (lines keep their trailing
newline, as in Python).  I/O is modelled by passing the read outcome
(`Except PyError`) explicitly, and the printed report is the returned
list of output strings.
-/

namespace Analyze

/-- The whitespace characters recognised by Python's `str.strip`,
`str.lstrip` and the regex class `\s` (ASCII range, the scope of this
model). -/
def isPySpace (c : Char) : Bool :=
  c = ' ' || c = '\t' || c = '\n' || c = '\r' || c = '\x0b' || c = '\x0c'

/-- `l.lstrip()`: remove leading whitespace. -/
def lstripChars (l : List Char) : List Char := l.dropWhile isPySpace

/-- `l.rstrip()`: remove trailing whitespace. -/
def rstripChars (l : List Char) : List Char := (l.reverse.dropWhile isPySpace).reverse

/-- `l.strip()`: remove leading and trailing whitespace. -/
def stripChars (l : List Char) : List Char := rstripChars (lstripChars l)

/-- `not l.strip()`: the line is blank after stripping. -/
def isBlankLine (l : List Char) : Bool := (stripChars l).isEmpty

/-- `l.strip().startswith('#') or l.strip().startswith('//')`. -/
def isCommentLine (l : List Char) : Bool :=
  List.isPrefixOf ['#'] (stripChars l) || List.isPrefixOf ['/', '/'] (stripChars l)

/-- `l.strip() and not l.strip().startswith('#') and not l.strip().startswith('//')`. -/
def isCodeLine (l : List Char) : Bool :=
  !(stripChars l).isEmpty &&
    !(List.isPrefixOf ['#'] (stripChars l)) && !(List.isPrefixOf ['/', '/'] (stripChars l))

/-- `total_lines = len(lines)`. -/
def total_lines (lines : List (List Char)) : Nat := lines.length

/-- `code_lines = sum(1 for l in lines if ...)`. -/
def code_lines (lines : List (List Char)) : Nat := lines.countP isCodeLine

/-- `comment_lines = sum(1 for l in lines if ...)`. -/
def comment_lines (lines : List (List Char)) : Nat := lines.countP isCommentLine

/-- `blank_lines = sum(1 for l in lines if not l.strip())`. -/
def blank_lines (lines : List (List Char)) : Nat := lines.countP isBlankLine

/-- The regex class `\w` (ASCII range). -/
def isWordChar (c : Char) : Bool := c.isAlphanum || c = '_'

/-- The alternative `const \w+ = (?:async )?\(` of the function pattern,
matched against the text after the leading whitespace.  `\w+` greedily
takes the maximal run of word characters; since the following literal
starts with a space (not a word character), this is equivalent to the
regex's backtracking semantics. -/
def constOpener (r : List Char) : Bool :=
  if List.isPrefixOf "const ".toList r then
    let rest := r.drop 6
    !(rest.takeWhile isWordChar).isEmpty &&
      (List.isPrefixOf " = (".toList (rest.dropWhile isWordChar) ||
        List.isPrefixOf " = async (".toList (rest.dropWhile isWordChar))
  else false

/-- `re.match(r'^\s*(def |function |async function |const \w+ = (?:async )?\()', l)`:
after the maximal run of leading whitespace (each alternative starts with a
non-space character, so the greedy `\s*` cannot usefully backtrack), the
line continues with one of the four opener forms. -/
def funcMatch (l : List Char) : Bool :=
  let r := l.dropWhile isPySpace
  List.isPrefixOf "def ".toList r || List.isPrefixOf "function ".toList r ||
    List.isPrefixOf "async function ".toList r || constOpener r

/-- `functions = sum(1 for l in lines if func_pattern.match(l))`. -/
def functions_count (lines : List (List Char)) : Nat := lines.countP funcMatch

/-- `len(l) - len(l.lstrip())`: the count of leading whitespace characters. -/
def indentOf (l : List Char) : Nat := l.length - (lstripChars l).length

/-- The runtime errors the script can raise: an I/O error from
`open`/`readlines`, or Python's `ValueError` from `max()` applied to an
empty sequence. -/
inductive PyError where
  | ioError
  | valueError
deriving DecidableEq, Repr

/-- `max((len(l) - len(l.lstrip())) for l in lines if l.strip()) if lines else 0`:
the guard checks only whether `lines` is non-empty; when it is non-empty but
every line strips to empty, `max()` receives an empty sequence and raises
`ValueError`. -/
def max_indent_comp (lines : List (List Char)) : Except PyError Nat :=
  if lines.isEmpty then Except.ok 0
  else
    match (lines.filter (fun l => !(stripChars l).isEmpty)).map indentOf with
    | [] => Except.error PyError.valueError
    | v :: vs => Except.ok (vs.foldl Nat.max v)

/-- `comment_lines / max(code_lines, 1) * 100`, as an exact rational. -/
def comment_ratio (lines : List (List Char)) : ℚ :=
  (comment_lines lines : ℚ) / ((max (code_lines lines) 1 : ℕ) : ℚ) * 100

/-- Round a rational to the nearest integer, ties to even (the rounding
used by IEEE formatting of exactly representable values). -/
def roundHalfEven (t : ℚ) : Int :=
  let f : Int := t.num.fdiv (t.den : Int)
  let frac : ℚ := t - (f : ℚ)
  if frac < 1 / 2 then f
  else if (1 : ℚ) / 2 < frac then f + 1
  else if f % 2 = 0 then f else f + 1

/-- The format specifier `:.1f`: one digit after the decimal point. -/
def formatFixed1 (q : ℚ) : String :=
  let r := roundHalfEven (q * 10)
  toString (r / 10) ++ "." ++ toString (r % 10)

/-- The eight `print(...)` lines, in source order. -/
def report_lines (filepath : String) (lines : List (List Char)) (mi : Nat) : List String :=
  ["File: " ++ filepath,
    "Total lines: " ++ toString (total_lines lines),
    "Code lines: " ++ toString (code_lines lines),
    "Comment lines: " ++ toString (comment_lines lines),
    "Blank lines: " ++ toString (blank_lines lines),
    "Functions: " ++ toString (functions_count lines),
    "Max indentation: " ++ toString mi ++ " spaces",
    "Comment ratio: " ++ formatFixed1 (comment_ratio lines) ++ "%"]

/-- `analyze_file(filepath)`, with the outcome of `open(filepath).readlines()`
passed in explicitly.  A read failure propagates with nothing printed; all
statistics are computed (the max-indentation one may raise) before any
`print` runs, so on an error the output is empty. -/
def analyze_file (filepath : String) (readResult : Except PyError (List (List Char))) :
    Except PyError (List String) :=
  match readResult with
  | Except.error e => Except.error e
  | Except.ok lines =>
    match max_indent_comp lines with
    | Except.error e => Except.error e
    | Except.ok mi => Except.ok (report_lines filepath lines mi)

/-- How a process run ends: `sys.exit(code)` / falling off the end, or an
uncaught Python exception. -/
inductive Outcome where
  | exited (code : Nat)
  | raised (e : PyError)
deriving DecidableEq, Repr

/-- The `__main__` block: `argv` is `sys.argv` (program name included),
`fsys` gives the read outcome for each path.  Returns the lines printed to
standard output and the process outcome. -/
def mainEntry (argv : List String) (fsys : String → Except PyError (List (List Char))) :
    List String × Outcome :=
  if argv.length < 2 then (["Usage: analyze.py <filepath>"], Outcome.exited 1)
  else
    match analyze_file (argv.getD 1 "") (fsys (argv.getD 1 "")) with
    | Except.ok out => (out, Outcome.exited 0)
    | Except.error e => ([], Outcome.raised e)

/-! ### Helper lemmas -/

lemma dropWhile_eq_cons_not (p : Char → Bool) :
    ∀ (l : List Char) (d : Char) (rest : List Char),
      l.dropWhile p = d :: rest → p d = false := by
  intro l
  induction l with
  | nil => intro d rest h; simp [List.dropWhile] at h
  | cons a t ih =>
    intro d rest h
    by_cases hp : p a
    · rw [List.dropWhile_cons, if_pos hp] at h
      exact ih d rest h
    · rw [List.dropWhile_cons, if_neg hp] at h
      cases h
      simpa using hp

lemma dropWhile_append_not (p : Char → Bool) (xs : List Char) (d : Char)
    (hd : p d = false) :
    (xs ++ [d]).dropWhile p = xs.dropWhile p ++ [d] := by
  rw [List.dropWhile_append]
  by_cases he : (xs.dropWhile p).isEmpty
  · rw [if_pos he]
    rw [List.isEmpty_iff] at he
    rw [he]
    simp [List.dropWhile, hd]
  · rw [if_neg he]

lemma rstripChars_cons_not (d : Char) (hd : isPySpace d = false) (t : List Char) :
    rstripChars (d :: t) = d :: rstripChars t := by
  unfold rstripChars
  rw [List.reverse_cons, dropWhile_append_not isPySpace t.reverse d hd,
    List.reverse_append]
  simp

lemma stripChars_head (l : List Char) (d : Char) (rest : List Char)
    (h : lstripChars l = d :: rest) :
    stripChars l = d :: rstripChars rest := by
  have hd : isPySpace d = false := dropWhile_eq_cons_not isPySpace l d rest h
  unfold stripChars
  rw [h, rstripChars_cons_not d hd]

lemma countP_if_toNat (b : Bool) : (if b = true then (1 : ℕ) else 0) = b.toNat := by
  cases b <;> rfl

lemma classify_partition (l : List Char) :
    (isCodeLine l).toNat + (isCommentLine l).toNat + (isBlankLine l).toNat = 1 := by
  unfold isCodeLine isCommentLine isBlankLine
  cases hs : stripChars l with
  | nil => simp [List.isPrefixOf]
  | cons c cs =>
    cases h1 : List.isPrefixOf ['#'] (c :: cs) <;>
      cases h2 : List.isPrefixOf ['/', '/'] (c :: cs) <;> simp [h1, h2]

/-! ### Claim theorems -/

/-- Claim C1: for every file content, the three classifying predicates over
the stripped line (empty / starts with `#` or `//` / other non-empty) are
mutually exclusive and exhaustive, so
`code_lines + comment_lines + blank_lines = total_lines` exactly. -/
theorem counts_partition (lines : List (List Char)) :
    code_lines lines + comment_lines lines + blank_lines lines = total_lines lines := by
  unfold code_lines comment_lines blank_lines total_lines
  induction lines with
  | nil => rfl
  | cons l t ih =>
    simp only [List.countP_cons, List.length_cons, countP_if_toNat]
    have hp := classify_partition l
    omega

lemma mainEntry_usage (argv : List String)
    (fsys : String → Except PyError (List (List Char))) (h : argv.length < 2) :
    mainEntry argv fsys = (["Usage: analyze.py <filepath>"], Outcome.exited 1) := by
  unfold mainEntry
  rw [if_pos h]

lemma mainEntry_read_error (argv : List String)
    (fsys : String → Except PyError (List (List Char))) (e : PyError)
    (h2 : 2 ≤ argv.length) (he : fsys (argv.getD 1 "") = Except.error e) :
    mainEntry argv fsys = ([], Outcome.raised e) := by
  unfold mainEntry
  rw [if_neg (by omega)]
  unfold analyze_file
  rw [he]

/-- Claim C2 (code-bug exhibit): on a non-empty file consisting of a single
blank line, the max-indentation guard `if lines` is true while the generator
over non-empty lines is empty, so `max()` raises `ValueError` instead of
reporting 0 as the spec states. -/
theorem blank_only_file_raises :
    analyze_file "blank.txt" (Except.ok [['\n']]) = Except.error PyError.valueError := rfl

/-- Claim C3 (counterexample): invoked with two positional arguments the
program does not print the usage text and exit 1; it analyzes the first
argument and exits 0. -/
theorem usage_claim_counterexample :
    ¬ (mainEntry ["analyze.py", "a.py", "b.py"] (fun _ => Except.ok []) =
        (["Usage: analyze <filepath>"], Outcome.exited 1)) := by decide

/-- Claim C3 (amended): with zero positional arguments (`len(sys.argv) < 2`)
the program prints `Usage: analyze.py <filepath>` and exits with status 1
without touching any file; with two or more positional arguments it does not
print the usage line but analyzes the first argument (in particular a read
error on that file propagates), ignoring the extra arguments. -/
theorem usage_behavior (argv : List String)
    (fsys : String → Except PyError (List (List Char))) :
    (argv.length < 2 →
      mainEntry argv fsys = (["Usage: analyze.py <filepath>"], Outcome.exited 1)) ∧
    (2 ≤ argv.length → ∀ e, fsys (argv.getD 1 "") = Except.error e →
      mainEntry argv fsys = ([], Outcome.raised e)) :=
  ⟨fun h => mainEntry_usage argv fsys h,
   fun h2 e he => mainEntry_read_error argv fsys e h2 he⟩

/-- Witness for `usage_behavior` at concrete inputs. -/
theorem usage_behavior_witness :
    mainEntry ["analyze.py"] (fun _ => Except.error PyError.ioError) =
      (["Usage: analyze.py <filepath>"], Outcome.exited 1) ∧
    mainEntry ["analyze.py", "a.py", "b.py"] (fun _ => Except.error PyError.ioError) =
      ([], Outcome.raised PyError.ioError) :=
  ⟨(usage_behavior ["analyze.py"] (fun _ => Except.error PyError.ioError)).1 (by decide),
   (usage_behavior ["analyze.py", "a.py", "b.py"]
      (fun _ => Except.error PyError.ioError)).2 (by decide) PyError.ioError rfl⟩

/-- Claim C5: a failed read propagates the I/O error out of `analyze_file`
unchanged, and the full run prints nothing (no report line and no usage
line): the report is produced only from a successful read. -/
theorem read_failure_propagates (path : String) (e : PyError) (argv : List String)
    (fsys : String → Except PyError (List (List Char))) :
    analyze_file path (Except.error e) = Except.error e ∧
    (2 ≤ argv.length → fsys (argv.getD 1 "") = Except.error e →
      mainEntry argv fsys = ([], Outcome.raised e)) :=
  ⟨rfl, fun h2 he => mainEntry_read_error argv fsys e h2 he⟩

/-- Witness for `read_failure_propagates` at concrete inputs. -/
theorem read_failure_propagates_witness :
    analyze_file "missing.txt" (Except.error PyError.ioError) =
      Except.error PyError.ioError ∧
    mainEntry ["analyze.py", "missing.txt"] (fun _ => Except.error PyError.ioError) =
      ([], Outcome.raised PyError.ioError) :=
  ⟨(read_failure_propagates "missing.txt" PyError.ioError ["analyze.py", "missing.txt"]
      (fun _ => Except.error PyError.ioError)).1,
   (read_failure_propagates "missing.txt" PyError.ioError ["analyze.py", "missing.txt"]
      (fun _ => Except.error PyError.ioError)).2 (by decide) rfl⟩

lemma head_of_funcMatch (l : List Char) (h : funcMatch l = true) :
    ∃ d rest, lstripChars l = d :: rest ∧ (d = 'd' ∨ d = 'f' ∨ d = 'a' ∨ d = 'c') := by
  unfold funcMatch at h
  simp only [Bool.or_eq_true] at h
  rcases h with ((h | h) | h) | h
  · rw [List.isPrefixOf_iff_prefix] at h
    obtain ⟨t, ht⟩ := h
    exact ⟨'d', "ef ".toList ++ t, by rw [lstripChars, ← ht]; rfl, Or.inl rfl⟩
  · rw [List.isPrefixOf_iff_prefix] at h
    obtain ⟨t, ht⟩ := h
    exact ⟨'f', "unction ".toList ++ t, by rw [lstripChars, ← ht]; rfl,
      Or.inr (Or.inl rfl)⟩
  · rw [List.isPrefixOf_iff_prefix] at h
    obtain ⟨t, ht⟩ := h
    exact ⟨'a', "sync function ".toList ++ t, by rw [lstripChars, ← ht]; rfl,
      Or.inr (Or.inr (Or.inl rfl))⟩
  · unfold constOpener at h
    by_cases hc : List.isPrefixOf "const ".toList (l.dropWhile isPySpace)
    · rw [List.isPrefixOf_iff_prefix] at hc
      obtain ⟨t, ht⟩ := hc
      exact ⟨'c', "onst ".toList ++ t, by rw [lstripChars, ← ht]; rfl,
        Or.inr (Or.inr (Or.inr rfl))⟩
    · rw [if_neg hc] at h
      cases h

lemma funcMatch_isCodeLine (l : List Char) (h : funcMatch l = true) :
    isCodeLine l = true := by
  obtain ⟨d, rest, hl, hd⟩ := head_of_funcMatch l h
  have hs := stripChars_head l d rest hl
  unfold isCodeLine
  rw [hs]
  rcases hd with rfl | rfl | rfl | rfl <;> simp [List.isPrefixOf]

/-- Claim C9: every line matched by the function-opener pattern is also
classified as a code line (after the leading whitespace it starts with a
letter, not `#` or `//` and not empty), so the function count never exceeds
the code-line count. -/
theorem functions_le_code_lines (lines : List (List Char)) :
    functions_count lines ≤ code_lines lines := by
  unfold functions_count code_lines
  exact List.countP_mono_left (fun l _ h => funcMatch_isCodeLine l h)

/-- Claim C6: `"const makeThing = async (x) => {\n"` is counted as a
function match (the `const <ident> = async (` alternative), while
`"let makeThing = (x) => {\n"` is not (no `let`/`var` alternative exists). -/
theorem const_counted_let_not :
    functions_count ["const makeThing = async (x) => \x7b\n".toList] = 1 ∧
    functions_count ["let makeThing = (x) => \x7b\n".toList] = 0 := by
  exact ⟨rfl, rfl⟩

lemma roundHalfEven_intCast (z : ℤ) : roundHalfEven (z : ℚ) = z := by
  unfold roundHalfEven
  rw [Rat.num_intCast, Rat.den_intCast]
  norm_num [Int.fdiv_one]

lemma formatFixed1_natCast (n : ℕ) : formatFixed1 (n : ℚ) = toString n ++ "." ++ "0" := by
  unfold formatFixed1
  have h1 : ((n : ℚ)) * 10 = ((10 * n : ℤ) : ℚ) := by push_cast; ring
  rw [h1, roundHalfEven_intCast]
  show toString ((10 * (n : ℤ)) / 10) ++ "." ++ toString ((10 * (n : ℤ)) % 10) =
    toString n ++ "." ++ "0"
  have h2 : (10 * (n : ℤ)) / 10 = (n : ℤ) := Int.mul_ediv_cancel_left _ (by norm_num)
  have h3 : (10 * (n : ℤ)) % 10 = 0 := Int.mul_emod_right 10 n
  rw [h2, h3]
  rfl

lemma analyze_file_ok (path : String) (lines : List (List Char)) (mi : Nat)
    (hm : max_indent_comp lines = Except.ok mi) :
    analyze_file path (Except.ok lines) = Except.ok (report_lines path lines mi) := by
  show (match max_indent_comp lines with
    | Except.error e => Except.error e
    | Except.ok mi => Except.ok (report_lines path lines mi)) =
      Except.ok (report_lines path lines mi)
  rw [hm]

lemma analyze_file_ok_inv (path : String) (lines : List (List Char)) (out : List String)
    (h : analyze_file path (Except.ok lines) = Except.ok out) :
    ∃ mi, max_indent_comp lines = Except.ok mi ∧ out = report_lines path lines mi := by
  unfold analyze_file at h
  cases hm : max_indent_comp lines with
  | error e =>
    simp only [hm] at h
    exact Except.noConfusion h
  | ok mi =>
    simp only [hm, Except.ok.injEq] at h
    exact ⟨mi, rfl, h.symm⟩

/-- Claim C7: for an empty file (zero lines) all counts are 0, the
max-indentation computation succeeds with 0, and the comment ratio is 0,
formatted as `0.0`. -/
theorem empty_file_all_zero :
    total_lines [] = 0 ∧ code_lines [] = 0 ∧ comment_lines [] = 0 ∧
    blank_lines [] = 0 ∧ functions_count [] = 0 ∧
    max_indent_comp [] = Except.ok 0 ∧ comment_ratio [] = 0 ∧
    analyze_file "empty.py" (Except.ok []) =
      Except.ok ["File: empty.py", "Total lines: 0", "Code lines: 0",
        "Comment lines: 0", "Blank lines: 0", "Functions: 0",
        "Max indentation: 0 spaces", "Comment ratio: 0.0%"] := by
  have hr : comment_ratio [] = ((0 : ℕ) : ℚ) := by
    unfold comment_ratio
    rw [show comment_lines [] = 0 from rfl, show code_lines [] = 0 from rfl]
    norm_num
  refine ⟨rfl, rfl, rfl, rfl, rfl, rfl, by rw [hr]; norm_num, ?_⟩
  rw [analyze_file_ok "empty.py" [] 0 rfl]
  unfold report_lines
  rw [hr, formatFixed1_natCast]
  rfl

/-- Claim C4: the reported comment ratio is
`comment_lines / max(code_lines, 1) * 100` formatted to one decimal place
(the last report line), and with zero code lines the ratio is
`comment_lines * 100` — no error and no special "no code" value. -/
theorem comment_ratio_reported (path : String) (lines : List (List Char))
    (out : List String) (h : analyze_file path (Except.ok lines) = Except.ok out) :
    out.getLast? =
      some ("Comment ratio: " ++ formatFixed1 (comment_ratio lines) ++ "%") ∧
    (code_lines lines = 0 →
      comment_ratio lines = (comment_lines lines : ℚ) * 100) := by
  obtain ⟨mi, hm, hout⟩ := analyze_file_ok_inv path lines out h
  constructor
  · rw [hout]
    rfl
  · intro h0
    unfold comment_ratio
    rw [h0]
    norm_num

/-- Witness for `comment_ratio_reported`: a file of 3 comment lines and no
code lines reports a comment ratio of 300.0. -/
theorem comment_ratio_reported_witness :
    (["File: c.txt", "Total lines: 3", "Code lines: 0", "Comment lines: 3",
      "Blank lines: 0", "Functions: 0", "Max indentation: 0 spaces",
      "Comment ratio: 300.0%"] : List String).getLast? =
      some ("Comment ratio: " ++
        formatFixed1 (comment_ratio ["# a".toList, "# b".toList, "# c".toList]) ++ "%") ∧
    (code_lines ["# a".toList, "# b".toList, "# c".toList] = 0 →
      comment_ratio ["# a".toList, "# b".toList, "# c".toList] =
        (comment_lines ["# a".toList, "# b".toList, "# c".toList] : ℚ) * 100) :=
  comment_ratio_reported "c.txt" ["# a".toList, "# b".toList, "# c".toList]
    ["File: c.txt", "Total lines: 3", "Code lines: 0", "Comment lines: 3",
      "Blank lines: 0", "Functions: 0", "Max indentation: 0 spaces",
      "Comment ratio: 300.0%"]
    (by
      have hr : comment_ratio ["# a".toList, "# b".toList, "# c".toList] =
          ((300 : ℕ) : ℚ) := by
        unfold comment_ratio
        rw [show comment_lines ["# a".toList, "# b".toList, "# c".toList] = 3 from rfl,
          show code_lines ["# a".toList, "# b".toList, "# c".toList] = 0 from rfl]
        norm_num
      rw [analyze_file_ok "c.txt" ["# a".toList, "# b".toList, "# c".toList] 0 rfl]
      unfold report_lines
      rw [hr, formatFixed1_natCast]
      rfl)

/-- Claim C8: on success the program prints exactly eight lines, in fixed
order: file path, total lines, code lines, comment lines, blank lines,
functions, max indentation suffixed `" spaces"`, and comment ratio suffixed
`"%"` with one decimal place — and nothing else. -/
theorem report_eight_lines (path : String) (lines : List (List Char))
    (out : List String) (h : analyze_file path (Except.ok lines) = Except.ok out) :
    ∃ mi, max_indent_comp lines = Except.ok mi ∧
      out = ["File: " ++ path,
        "Total lines: " ++ toString (total_lines lines),
        "Code lines: " ++ toString (code_lines lines),
        "Comment lines: " ++ toString (comment_lines lines),
        "Blank lines: " ++ toString (blank_lines lines),
        "Functions: " ++ toString (functions_count lines),
        "Max indentation: " ++ toString mi ++ " spaces",
        "Comment ratio: " ++ formatFixed1 (comment_ratio lines) ++ "%"] ∧
      out.length = 8 := by
  obtain ⟨mi, hm, hout⟩ := analyze_file_ok_inv path lines out h
  exact ⟨mi, hm, hout, by rw [hout]; rfl⟩

/-- Witness for `report_eight_lines` on a one-line file. -/
theorem report_eight_lines_witness :
    ∃ mi, max_indent_comp ["x".toList] = Except.ok mi ∧
      (["File: f.py", "Total lines: 1", "Code lines: 1", "Comment lines: 0",
        "Blank lines: 0", "Functions: 0", "Max indentation: 0 spaces",
        "Comment ratio: 0.0%"] : List String) =
        ["File: " ++ "f.py",
          "Total lines: " ++ toString (total_lines ["x".toList]),
          "Code lines: " ++ toString (code_lines ["x".toList]),
          "Comment lines: " ++ toString (comment_lines ["x".toList]),
          "Blank lines: " ++ toString (blank_lines ["x".toList]),
          "Functions: " ++ toString (functions_count ["x".toList]),
          "Max indentation: " ++ toString mi ++ " spaces",
          "Comment ratio: " ++ formatFixed1 (comment_ratio ["x".toList]) ++ "%"] ∧
      (["File: f.py", "Total lines: 1", "Code lines: 1", "Comment lines: 0",
        "Blank lines: 0", "Functions: 0", "Max indentation: 0 spaces",
        "Comment ratio: 0.0%"] : List String).length = 8 :=
  report_eight_lines "f.py" ["x".toList]
    ["File: f.py", "Total lines: 1", "Code lines: 1", "Comment lines: 0",
      "Blank lines: 0", "Functions: 0", "Max indentation: 0 spaces",
      "Comment ratio: 0.0%"]
    (by
      have hr : comment_ratio ["x".toList] = ((0 : ℕ) : ℚ) := by
        unfold comment_ratio
        rw [show comment_lines ["x".toList] = 0 from rfl,
          show code_lines ["x".toList] = 1 from rfl]
        norm_num
      rw [analyze_file_ok "f.py" ["x".toList] 0 rfl]
      unfold report_lines
      rw [hr, formatFixed1_natCast]
      rfl)

/-- Claim C10: the analyzer is deterministic and reads nothing but the
invoked file — two invocations with the same argument vector whose reads of
the invoked path (`sys.argv[1]`) yield the same outcome produce
character-for-character identical standard output and outcome, even when the
file systems differ at every other path: the report depends only on the path
string and that file's content. -/
theorem analyze_deterministic (argv : List String)
    (fs₁ fs₂ : String → Except PyError (List (List Char)))
    (hf : fs₁ (argv.getD 1 "") = fs₂ (argv.getD 1 "")) :
    mainEntry argv fs₁ = mainEntry argv fs₂ := by
  unfold mainEntry
  rw [hf]

/-- Witness for `analyze_deterministic`: the two file systems agree on the
invoked path `a.py` but disagree on every other path (one errors, the other
reads an extra comment line), yet the runs coincide. -/
theorem analyze_deterministic_witness :
    mainEntry ["analyze.py", "a.py"]
      (fun p => if p = "a.py" then Except.ok ["x".toList] else Except.ok ["# y".toList]) =
      mainEntry ["analyze.py", "a.py"]
        (fun p => if p = "a.py" then Except.ok ["x".toList]
          else Except.error PyError.ioError) :=
  analyze_deterministic ["analyze.py", "a.py"]
    (fun p => if p = "a.py" then Except.ok ["x".toList] else Except.ok ["# y".toList])
    (fun p => if p = "a.py" then Except.ok ["x".toList]
      else Except.error PyError.ioError)
    (by rfl)

end Analyze
